import Mathlib

/-! Shallow embedding of the cartesi-demo benchmark scripts: the measurement
harness of bench.js (unnamed part_000) and of src/sql_bench.js, with the file
and database effects the harness exercises and the fixed schema and fixture
data of the SQL benchmark. Machine timestamps are modelled by a clock reading
sequence, one reading per call of process.hrtime.bigint, and environment
failures of the awaited file and database primitives by a failure oracle. -/

/-- A SQL value as stored by the embedded database model. Decimal columns of
type DECIMAL(10,2) are stored exactly, as integer hundredths. -/
inductive SqlValue where
  | vnull : SqlValue
  | vint : Int → SqlValue
  | vdec : Int → SqlValue
  | vtext : String → SqlValue
deriving DecidableEq

/-- One row of a table: the column values, the integer primary key first. -/
abbrev DbRow := List SqlValue

/-- The embedded database: an association list from table name to the rows of
that table, tables in creation order, rows in insertion order. -/
structure Database where
  tables : List (String × List DbRow)
deriving DecidableEq

/-- A database with no tables, as the sqlite driver creates for a new file. -/
def Database.empty : Database := ⟨[]⟩

/-- DROP TABLE IF EXISTS: remove the named table when present, never fail. -/
def dropTableIfExists (d : Database) (n : String) : Database :=
  ⟨d.tables.filter fun p => p.1 != n⟩

/-- CREATE TABLE: fail when a table of that name already exists, otherwise
append an empty table. -/
def createTable (d : Database) (n : String) : Except String Database :=
  if (d.tables.lookup n).isSome then
    Except.error ("table " ++ n ++ " already exists")
  else
    Except.ok ⟨d.tables ++ [(n, [])]⟩

/-- The five table names of the schema of sql_bench.js, in creation order. -/
def schemaTableNames : List String :=
  ["customers", "categories", "products", "orders", "order_items"]

/-- The first exec of createSchema, sql_bench.js lines 142 to 148: drop the
five tables if they exist, in reverse order of their dependencies. -/
def dropSchemaTables (d : Database) : Database :=
  let d1 := dropTableIfExists d "order_items"
  let d2 := dropTableIfExists d1 "orders"
  let d3 := dropTableIfExists d2 "products"
  let d4 := dropTableIfExists d3 "categories"
  dropTableIfExists d4 "customers"

/-- The second exec of createSchema, sql_bench.js lines 151 to 192: create
the five tables. Column constraints and the defaulted timestamp columns are
not modelled; a row stores the auto primary key first, then the values the
INSERT supplies. -/
def createSchemaTables (d : Database) : Except String Database := do
  let d1 ← createTable d "customers"
  let d2 ← createTable d1 "categories"
  let d3 ← createTable d2 "products"
  let d4 ← createTable d3 "orders"
  createTable d4 "order_items"

/-- createSchema of sql_bench.js: the drop batch, then the create batch. -/
def createSchemaDb (d : Database) : Except String Database :=
  createSchemaTables (dropSchemaTables d)

/-- Prepend the auto-assigned integer primary key to each inserted tuple,
continuing from the current row count, one key per row in order, as sqlite
assigns rowids to fresh INTEGER PRIMARY KEY tables. -/
def withIds (start : Nat) : List (List SqlValue) → List DbRow
  | [] => []
  | v :: vs => (SqlValue.vint (Int.ofNat (start + 1)) :: v) :: withIds (start + 1) vs

/-- INSERT INTO a table: fail when the table does not exist, otherwise append
the tuples with their auto-assigned primary keys. -/
def insertRows (d : Database) (n : String) (vals : List (List SqlValue)) :
    Except String Database :=
  match d.tables.lookup n with
  | none => Except.error ("no such table: " ++ n)
  | some rows =>
      Except.ok ⟨d.tables.map fun p =>
        if p.1 == n then (n, rows ++ withIds rows.length vals) else p⟩

/-- The customer tuples of insertTestData, sql_bench.js lines 197 to 202:
name and email. -/
def customerVals : List (List SqlValue) :=
  [[SqlValue.vtext "John Doe", SqlValue.vtext "john@example.com"],
   [SqlValue.vtext "Jane Smith", SqlValue.vtext "jane@example.com"],
   [SqlValue.vtext "Bob Johnson", SqlValue.vtext "bob@example.com"]]

/-- The category tuples, lines 205 to 213: name and parent id. -/
def categoryVals : List (List SqlValue) :=
  [[SqlValue.vtext "Electronics", SqlValue.vnull],
   [SqlValue.vtext "Computers", SqlValue.vint 1],
   [SqlValue.vtext "Smartphones", SqlValue.vint 1],
   [SqlValue.vtext "Clothing", SqlValue.vnull],
   [SqlValue.vtext "Men", SqlValue.vint 4],
   [SqlValue.vtext "Women", SqlValue.vint 4]]

/-- The product tuples, lines 216 to 222: name, description, price and
category id. -/
def productVals : List (List SqlValue) :=
  [[SqlValue.vtext "Premium Laptop", SqlValue.vtext "High-end laptop with premium features",
    SqlValue.vdec 129999, SqlValue.vint 2],
   [SqlValue.vtext "Smartphone Pro", SqlValue.vtext "Latest smartphone with exclusive features",
    SqlValue.vdec 99999, SqlValue.vint 3],
   [SqlValue.vtext "Classic T-Shirt", SqlValue.vtext "Comfortable cotton t-shirt",
    SqlValue.vdec 2999, SqlValue.vint 5],
   [SqlValue.vtext "Designer Dress", SqlValue.vtext "Elegant designer dress",
    SqlValue.vdec 19999, SqlValue.vint 6]]

/-- The order tuples, lines 226 to 230: customer id and total amount. -/
def orderVals : List (List SqlValue) :=
  [[SqlValue.vint 1, SqlValue.vdec 132998],
   [SqlValue.vint 1, SqlValue.vdec 22998],
   [SqlValue.vint 2, SqlValue.vdec 99999],
   [SqlValue.vint 3, SqlValue.vdec 19999]]

/-- The order item tuples, lines 232 to 238: order id, product id, quantity
and price. -/
def orderItemVals : List (List SqlValue) :=
  [[SqlValue.vint 1, SqlValue.vint 1, SqlValue.vint 1, SqlValue.vdec 129999],
   [SqlValue.vint 1, SqlValue.vint 3, SqlValue.vint 1, SqlValue.vdec 2999],
   [SqlValue.vint 2, SqlValue.vint 3, SqlValue.vint 2, SqlValue.vdec 2999],
   [SqlValue.vint 3, SqlValue.vint 2, SqlValue.vint 1, SqlValue.vdec 99999],
   [SqlValue.vint 4, SqlValue.vint 4, SqlValue.vint 1, SqlValue.vdec 19999]]

/-- insertTestData of sql_bench.js, lines 195 to 239: the four exec batches,
inserting customers, categories, products, then orders and order items. -/
def insertTestDataDb (d : Database) : Except String Database := do
  let d1 ← insertRows d "customers" customerVals
  let d2 ← insertRows d1 "categories" categoryVals
  let d3 ← insertRows d2 "products" productVals
  let d4 ← insertRows d3 "orders" orderVals
  insertRows d4 "order_items" orderItemVals

/-- The row count a SELECT COUNT query returns for a table: none when the
table does not exist. -/
def rowCount (d : Database) (n : String) : Option Nat :=
  (d.tables.lookup n).map List.length

/-- The database bench_sql has built after schema creation and fixture
insertion, starting from an empty database. -/
def fixtureDb : Except String Database :=
  (createSchemaDb Database.empty).bind insertTestDataDb

/-- What a file of the temp directory holds: text written by writeFileSync,
or the embedded database file. -/
inductive FileData where
  | text : String → FileData
  | dbfile : Database → FileData

/-- The state a run threads: how many monotonic timestamps were taken so far,
the stdout lines in order, the temp-directory files, every path a file or
database primitive touched in order, and the open database connection. -/
structure World where
  clockIdx : Nat
  output : List String
  files : List (String × FileData)
  touched : List String
  conn : Option Database

/-- The state a fresh process starts from: no timestamps, no output, an empty
temp directory, no connection. -/
def World.init : World := ⟨0, [], [], [], none⟩

/-- The fallible call sites of the benchmark, in program order: each file or
database primitive the run awaits. The square root loop is pure and has no
call site. -/
inductive Step where
  | fileWrite | fileRead | fileUnlink
  | dbOpen | schemaDrop | schemaCreate
  | insertCustomers | insertCategories | insertProducts | insertOrders
  | queryJoin | queryCte | queryAgg | querySearch
  | dbClose | dbUnlinkFile
deriving DecidableEq

/-- The runtime environment a run is parameterised by: the monotonic clock
readings in the order process.hrtime.bigint is called, and a failure oracle
standing for the environment errors a call site may raise, such as a disk or
engine error. -/
structure Env where
  clock : Nat → Int
  failAt : Step → Option String

/-- An environment in which no call site raises an environment error. -/
def okEnv (clock : Nat → Int) : Env := ⟨clock, fun _ => none⟩

/-- An environment in which exactly one call site raises an error with the
given message. -/
def failOnly (clock : Nat → Int) (s : Step) (m : String) : Env :=
  ⟨clock, fun t => if t = s then some m else none⟩

/-- A benchmark computation: state passing over World with propagating
errors, the semantics of awaited promise rejections under no local catch. -/
abbrev BenchM := EStateM String World

/-- process.hrtime.bigint: the next clock reading. -/
def takeTime (e : Env) : BenchM Int := fun w =>
  EStateM.Result.ok (e.clock w.clockIdx) { w with clockIdx := w.clockIdx + 1 }

/-- console.log: append one line to stdout. -/
def printLine (s : String) : BenchM Unit := fun w =>
  EStateM.Result.ok () { w with output := w.output ++ [s] }

/-- Raise the injected environment failure of a call site, when the oracle
holds one. -/
def checkFail (e : Env) (s : Step) : BenchM Unit := fun w =>
  match e.failAt s with
  | some m => EStateM.Result.error m w
  | none => EStateM.Result.ok () w

/-- Record that a primitive touched a filesystem path. -/
def touch (p : String) : BenchM Unit := fun w =>
  EStateM.Result.ok () { w with touched := w.touched ++ [p] }

/-- Apply a pure state change. -/
def modifyW (f : World → World) : BenchM Unit := fun w =>
  EStateM.Result.ok () (f w)

/-- Read the current state. -/
def getW : BenchM World := fun w => EStateM.Result.ok w w

/-- Raise an error, as a throwing primitive does. -/
def throwB {α : Type} (m : String) : BenchM α := fun w =>
  EStateM.Result.error m w

/-- Lift a fallible pure result into the run. -/
def liftE {α : Type} : Except String α → BenchM α
  | Except.ok a => fun w => EStateM.Result.ok a w
  | Except.error m => fun w => EStateM.Result.error m w

/-- Write to a file list: create the path or overwrite it. -/
def upsertFile (fl : List (String × FileData)) (p : String) (c : FileData) :
    List (String × FileData) :=
  (p, c) :: fl.filter fun q => q.1 != p

/-- Read a text file from a file list: its content, or the error readFileSync
raises when the path is missing. -/
def readTextFile (fl : List (String × FileData)) (p : String) :
    Except String String :=
  match fl.lookup p with
  | some (FileData.text c) => Except.ok c
  | some (FileData.dbfile _) => Except.error ("not a text file: " ++ p)
  | none => Except.error ("ENOENT: " ++ p)

/-- fs.writeFileSync. -/
def fsWrite (e : Env) (p : String) (c : String) : BenchM Unit := do
  checkFail e .fileWrite
  touch p
  modifyW fun w => { w with files := upsertFile w.files p (FileData.text c) }

/-- fs.readFileSync with utf8. -/
def fsRead (e : Env) (p : String) : BenchM String := do
  checkFail e .fileRead
  touch p
  let w ← getW
  liftE (readTextFile w.files p)

/-- fs.unlinkSync at a given call site: error when the path is missing,
otherwise remove it. -/
def fsUnlink (e : Env) (s : Step) (p : String) : BenchM Unit := do
  checkFail e s
  touch p
  let w ← getW
  if (w.files.lookup p).isSome then
    modifyW fun w2 => { w2 with files := w2.files.filter fun q => q.1 != p }
  else
    throwB ("ENOENT: " ++ p)

/-- open of the sqlite wrapper, sql_bench.js lines 12 to 15: create the
database file when the path is missing, otherwise load it; the connection
becomes the open handle. -/
def dbOpenM (e : Env) (p : String) : BenchM Unit := do
  checkFail e .dbOpen
  touch p
  let w ← getW
  match w.files.lookup p with
  | some (FileData.dbfile d) => modifyW fun w2 => { w2 with conn := some d }
  | some (FileData.text _) => throwB ("not a database: " ++ p)
  | none => modifyW fun w2 =>
      { w2 with files := upsertFile w2.files p (FileData.dbfile Database.empty),
                conn := some Database.empty }

/-- db.close: persist the connection state to the database file and drop the
handle. -/
def dbCloseM (e : Env) (p : String) : BenchM Unit := do
  checkFail e .dbClose
  touch p
  let w ← getW
  match w.conn with
  | none => throwB "database is closed"
  | some d => modifyW fun w2 =>
      { w2 with files := upsertFile w2.files p (FileData.dbfile d), conn := none }

/-- db.exec of one statement batch: apply the batch to the open connection,
propagating the engine error when the batch fails. -/
def execM (e : Env) (s : Step) (f : Database → Except String Database) :
    BenchM Unit := do
  checkFail e s
  let w ← getW
  match w.conn with
  | none => throwB "database is closed"
  | some d =>
    match f d with
    | Except.ok d2 => modifyW fun w2 => { w2 with conn := some d2 }
    | Except.error m => throwB m

/-- db.all of one read-only query: error when the connection is closed or a
table the query references is missing; the returned rows are not modelled,
the script discards them. -/
def queryM (e : Env) (s : Step) (refs : List String) : BenchM Unit := do
  checkFail e s
  let w ← getW
  match w.conn with
  | none => throwB "database is closed"
  | some d =>
    if refs.all fun n => (d.tables.lookup n).isSome then pure ()
    else throwB "no such table"

/-- The platform temp directory, os.tmpdir, modelled as a constant path. -/
def tmpdir : String := "/tmp"

/-- The 1 MiB test buffer of bench.js line 25: the character x repeated
1048576 times. -/
def testData : String := String.mk (List.replicate (1024 * 1024) 'x')

/-- The temp file of bench.js line 26. -/
def testFile : String := tmpdir ++ "/benchmark_test.txt"

/-- The database file of sql_bench.js line 9. -/
def dbPath : String := tmpdir ++ "/sql_benchmark.db"

/-- The CPU-bound loop of bench_simple, bench.js lines 17 to 19: the square
root of each integer below 1000000, computed and discarded. The float square
root is modelled by the natural number one; the script discards every result,
so only the iteration is represented. -/
def sqrtLoop : List Nat := (List.range 1000000).map Nat.sqrt

/-- One stdout line, exactly as the console.log template literals of both
scripts print it: label, the word time with a colon, the elapsed nanoseconds
and the unit. -/
def fmtLine (label : String) (d : Int) : String :=
  label ++ " time: " ++ toString d ++ " nanoseconds"

/-- bench_simple of bench.js, lines 13 to 42: time the square root loop, the
1 MiB file write and the file read, then delete the temp file. -/
def benchSimple (e : Env) : BenchM Unit := do
  let start ← takeTime e
  let _ := sqrtLoop
  let endT ← takeTime e
  printLine (fmtLine "Square root execution" (endT - start))
  let writeStart ← takeTime e
  fsWrite e testFile testData
  let writeEnd ← takeTime e
  printLine (fmtLine "Write execution" (writeEnd - writeStart))
  let readStart ← takeTime e
  let _ ← fsRead e testFile
  let readEnd ← takeTime e
  printLine (fmtLine "Read execution" (readEnd - readStart))
  fsUnlink e .fileUnlink testFile

/-- bench_sql of sql_bench.js, lines 7 to 138: open the database, run the six
timed stages, close and delete the database file, then print the total line
spanning the first timestamp of bench_sql to the last. -/
def benchSql (e : Env) : BenchM Unit := do
  let start ← takeTime e
  dbOpenM e dbPath
  let schemaStart ← takeTime e
  execM e .schemaDrop fun d => Except.ok (dropSchemaTables d)
  execM e .schemaCreate createSchemaTables
  let schemaEnd ← takeTime e
  printLine (fmtLine "Schema creation" (schemaEnd - schemaStart))
  let insertStart ← takeTime e
  execM e .insertCustomers fun d => insertRows d "customers" customerVals
  execM e .insertCategories fun d => insertRows d "categories" categoryVals
  execM e .insertProducts fun d => insertRows d "products" productVals
  execM e .insertOrders fun d => do
    let d1 ← insertRows d "orders" orderVals
    insertRows d1 "order_items" orderItemVals
  let insertEnd ← takeTime e
  printLine (fmtLine "Data insertion" (insertEnd - insertStart))
  let joinStart ← takeTime e
  queryM e .queryJoin ["customers", "orders", "order_items", "products"]
  let joinEnd ← takeTime e
  printLine (fmtLine "Complex JOIN query" (joinEnd - joinStart))
  let cteStart ← takeTime e
  queryM e .queryCte ["categories"]
  let cteEnd ← takeTime e
  printLine (fmtLine "Recursive CTE query" (cteEnd - cteStart))
  let aggStart ← takeTime e
  queryM e .queryAgg ["customers", "orders", "order_items"]
  let aggEnd ← takeTime e
  printLine (fmtLine "Complex aggregation" (aggEnd - aggStart))
  let searchStart ← takeTime e
  queryM e .querySearch ["products", "categories"]
  let searchEnd ← takeTime e
  printLine (fmtLine "Full-text search" (searchEnd - searchStart))
  dbCloseM e dbPath
  fsUnlink e .dbUnlinkFile dbPath
  let endT ← takeTime e
  printLine (fmtLine "Total SQL benchmark" (endT - start))

/-- bench of bench.js, lines 6 to 9: the simple benchmarks then the SQL
benchmark, any rejection propagating to the caller. -/
def bench (e : Env) : BenchM Unit := do
  benchSimple e
  benchSql e

/-- The observable result of running the script as a process. -/
structure ProcResult where
  exitCode : Nat
  stdout : List String
  stderr : List String
deriving DecidableEq

/-- The entry point, bench.js line 44: bench() followed by catch with
console.error as the handler. A rejection is caught by that handler, which
prints the error to stderr; the event loop then drains with no unhandled
rejection, so node exits with code zero whether or not a step failed. -/
def nodeMain (e : Env) : ProcResult :=
  match (bench e).run World.init with
  | EStateM.Result.ok _ w => ⟨0, w.output, []⟩
  | EStateM.Result.error m w => ⟨0, w.output, [m]⟩

/-- The stdout lines a run produces; console.log output stays written also
when the run ends in an error. -/
def benchStdout (e : Env) : List String :=
  match (bench e).run World.init with
  | EStateM.Result.ok _ w => w.output
  | EStateM.Result.error _ w => w.output

/-- The error a run propagates to the caller, when it propagates one. -/
def benchErr (e : Env) : Option String :=
  match (bench e).run World.init with
  | EStateM.Result.ok _ _ => none
  | EStateM.Result.error m _ => some m

/-- Whether the run completed with no error. -/
def benchOk (e : Env) : Bool :=
  match (bench e).run World.init with
  | EStateM.Result.ok _ _ => true
  | EStateM.Result.error _ _ => false

/-- The temp-directory files left at the end of a run. -/
def benchFiles (e : Env) : List (String × FileData) :=
  match (bench e).run World.init with
  | EStateM.Result.ok _ w => w.files
  | EStateM.Result.error _ w => w.files

/-- Every filesystem path the run touched, in order. -/
def benchTouched (e : Env) : List String :=
  match (bench e).run World.init with
  | EStateM.Result.ok _ w => w.touched
  | EStateM.Result.error _ w => w.touched

/-- The timestamp index pairs the ten printed lines subtract, in output
order: readings are numbered from zero in the order they are taken, six in
bench_simple and fourteen in bench_sql. The last pair is the total line,
spanning reading 6, taken at the start of bench_sql, to reading 19, the last
of the run. -/
def runIntervals : List (Nat × Nat) :=
  [(0, 1), (2, 3), (4, 5), (7, 8), (9, 10), (11, 12), (13, 14), (15, 16),
   (17, 18), (6, 19)]

/-- The labels of the ten lines, in output order. -/
def benchLabels : List String :=
  ["Square root execution", "Write execution", "Read execution",
   "Schema creation", "Data insertion", "Complex JOIN query",
   "Recursive CTE query", "Complex aggregation", "Full-text search",
   "Total SQL benchmark"]

/-- The elapsed values of the ten lines under a given clock. -/
def runDurations (clock : Nat → Int) : List Int :=
  runIntervals.map fun p => clock p.2 - clock p.1

/-- The stdout of a fully successful run under a given clock. -/
def successLines (clock : Nat → Int) : List String :=
  (benchLabels.zip (runDurations clock)).map fun p => fmtLine p.1 p.2

/-- The number of stdout lines already printed when each call site runs. -/
def linesBefore : Step → Nat
  | .fileWrite => 1
  | .fileRead => 2
  | .fileUnlink => 3
  | .dbOpen => 3
  | .schemaDrop => 3
  | .schemaCreate => 3
  | .insertCustomers => 4
  | .insertCategories => 4
  | .insertProducts => 4
  | .insertOrders => 4
  | .queryJoin => 5
  | .queryCte => 6
  | .queryAgg => 7
  | .querySearch => 8
  | .dbClose => 9
  | .dbUnlinkFile => 9

/-- A clock whose reading is its index, for concrete runs. -/
def idClock : Nat → Int := fun i => (i : Int)

/-- The database createSchema leaves behind whenever the starting tables are
all among the five schema tables: the five tables, empty, in creation
order. -/
def freshSchemaDb : Database :=
  ⟨[("customers", []), ("categories", []), ("products", []), ("orders", []),
    ("order_items", [])]⟩

/-- C1, counterexample: the claim says the process exits non-zero when a
step fails, but when the file write fails the rejection is caught by the
catch handler of bench.js line 44, the error is reported on stderr, and the
exit code is zero, not non-zero. -/
theorem c1_counterexample :
    (nodeMain (failOnly idClock Step.fileWrite "EACCES")).stderr = ["EACCES"]
    ∧ ¬ (nodeMain (failOnly idClock Step.fileWrite "EACCES")).exitCode ≠ 0 :=
  ⟨rfl, fun hne => hne rfl⟩

/-- C1, amended: whatever the clock, the process exits zero; when every step
succeeds, stderr is empty and stdout ends with the total line; when any call
site fails, the process still exits zero and the caught error is reported on
stderr. -/
theorem c1_exit_behavior (clock : Nat → Int) (s : Step) (m : String) :
    (nodeMain (okEnv clock)).exitCode = 0
    ∧ (nodeMain (okEnv clock)).stderr = []
    ∧ (nodeMain (okEnv clock)).stdout.getLast?
        = some (fmtLine "Total SQL benchmark" (clock 19 - clock 6))
    ∧ (nodeMain (failOnly clock s m)).exitCode = 0
    ∧ (nodeMain (failOnly clock s m)).stderr = [m] := by
  refine ⟨rfl, rfl, rfl, ?_, ?_⟩ <;> cases s <;> rfl

/-- C2, counterexample: under the clock whose reading i is i, the total line
of a fully successful run reports 13 nanoseconds, the span from reading 6,
the first timestamp of bench_sql, to reading 19; the span from the first
timestamp of the whole run, reading 0 taken before the square root loop, to
the last is 19, and the two lines differ. -/
theorem c2_counterexample :
    (benchStdout (okEnv idClock)).getLast?
      = some (fmtLine "Total SQL benchmark" 13)
    ∧ idClock 19 - idClock 0 = 19
    ∧ fmtLine "Total SQL benchmark" 13 ≠ fmtLine "Total SQL benchmark" 19 := by
  refine ⟨rfl, rfl, ?_⟩
  decide

/-- C2, amended: a fully successful run prints the success lines, exactly
one of which is a total line, the last; its value spans reading 6, the first
timestamp captured inside bench_sql after the square root and file
benchmarks have finished, to reading 19, the last timestamp of the run,
taken after database cleanup. -/
theorem c2_total_span (clock : Nat → Int) :
    benchStdout (okEnv clock) = successLines clock
    ∧ (successLines clock).getLast?
        = some (fmtLine "Total SQL benchmark" (clock 19 - clock 6))
    ∧ (successLines clock).length = 10 :=
  ⟨rfl, rfl, rfl⟩

/-- C3: for every fallible call site, a failure there with any message
propagates to the caller uncaught, and the stdout lines are exactly those
printed before the failing site: the lines of every later operation are
missing, since fewer than all ten lines appear. -/
theorem c3_error_propagation (clock : Nat → Int) (s : Step) (m : String) :
    benchErr (failOnly clock s m) = some m
    ∧ benchStdout (failOnly clock s m)
        = (successLines clock).take (linesBefore s)
    ∧ linesBefore s < 10 := by
  cases s <;> exact ⟨rfl, rfl, by decide⟩

/-- C4: a run in which every operation succeeds completes with no error and
prints exactly one line per timed operation plus one total line, in listed
order, each of the form label, time colon, an integer, nanoseconds. -/
theorem c4_success_output (clock : Nat → Int) :
    benchOk (okEnv clock) = true
    ∧ benchStdout (okEnv clock)
        = ((benchLabels.zip (runDurations clock)).map fun p => fmtLine p.1 p.2)
    ∧ benchLabels.length = 10 :=
  ⟨rfl, rfl, rfl⟩

/-- C5: after schema creation and the fixture load on an empty database, the
row counts are exactly 3 customers, 6 categories, 4 products, 4 orders and
5 order items. -/
theorem c5_fixture_counts :
    (fixtureDb.map fun d =>
      (rowCount d "customers", rowCount d "categories", rowCount d "products",
       rowCount d "orders", rowCount d "order_items"))
    = Except.ok (some 3, some 6, some 4, some 4, some 5) := rfl

/-- C6: writing the 1 MiB buffer of the repeated character x to the temp
file and reading the file back yields the original buffer, byte for byte,
whatever else the temp directory holds, and that buffer has length exactly
1048576. -/
theorem c6_file_roundtrip (fl : List (String × FileData)) :
    readTextFile (upsertFile fl testFile (FileData.text testData)) testFile
      = Except.ok testData
    ∧ testData.length = 1048576 := by
  constructor
  · simp [readTextFile, upsertFile, List.lookup]
  · unfold testData
    rw [String.length]
    rw [List.length_replicate]

/-- C7: on a fresh empty database, schema setup succeeds and afterwards the
five named tables all exist and each holds zero rows. -/
theorem c7_fresh_schema :
    (createSchemaDb Database.empty).map
      (fun d => schemaTableNames.map fun n => rowCount d n)
    = Except.ok [some 0, some 0, some 0, some 0, some 0] := rfl

/-- C8: when the clock is monotone, every printed line pairs a start reading
with a later end reading, the end timestamp is not earlier than the start,
and every emitted elapsed duration, the total included, is non-negative. -/
theorem c8_durations_nonneg (clock : Nat → Int) (h : Monotone clock) :
    benchStdout (okEnv clock) = successLines clock
    ∧ (∀ p ∈ runIntervals, clock p.1 ≤ clock p.2)
    ∧ (∀ d ∈ runDurations clock, 0 ≤ d) := by
  have key : ∀ p ∈ runIntervals, p.1 ≤ p.2 := by decide
  refine ⟨rfl, fun p hp => h (key p hp), fun d hd => ?_⟩
  simp only [runDurations, List.mem_map] at hd
  obtain ⟨p, hp, rfl⟩ := hd
  exact sub_nonneg.mpr (h (key p hp))

/-- C8, witness: the monotone hypothesis discharged at the clock whose
reading i is i. -/
theorem c8_monotone_witness :
    benchStdout (okEnv idClock) = successLines idClock
    ∧ (∀ p ∈ runIntervals, idClock p.1 ≤ idClock p.2)
    ∧ (∀ d ∈ runDurations idClock, 0 ≤ d) :=
  c8_durations_nonneg idClock fun _ _ hab => Int.ofNat_le.mpr hab

/-- C9: a fully successful run touches exactly two filesystem paths, the
1 MiB text file and the database file, both under the temp directory, and at
the end of the run the temp directory is empty again: both files have been
deleted. -/
theorem c9_temp_artifacts (clock : Nat → Int) :
    benchOk (okEnv clock) = true
    ∧ benchFiles (okEnv clock) = []
    ∧ (∀ p, p ∈ benchTouched (okEnv clock) ↔ (p = testFile ∨ p = dbPath)) := by
  refine ⟨rfl, rfl, fun p => ?_⟩
  have ht : benchTouched (okEnv clock)
      = [testFile, testFile, testFile, dbPath, dbPath, dbPath] := rfl
  rw [ht]
  simp only [List.mem_cons, List.not_mem_nil, or_false]
  tauto

/-- C10: on every starting database whose tables are all among the five
schema tables, leftover rows included, schema setup succeeds and leaves the
same database as on a fresh one: the five tables, all empty; in particular
running schema setup twice is the same as running it once. -/
theorem c10_schema_reset (d : Database)
    (h : ∀ p ∈ d.tables, p.1 ∈ schemaTableNames) :
    createSchemaDb d = Except.ok freshSchemaDb
    ∧ createSchemaDb Database.empty = Except.ok freshSchemaDb
    ∧ createSchemaDb freshSchemaDb = Except.ok freshSchemaDb
    ∧ ∀ n ∈ schemaTableNames, rowCount freshSchemaDb n = some 0 := by
  refine ⟨?_, rfl, rfl, by decide⟩
  have drop : (dropSchemaTables d).tables = [] := by
    simp only [dropSchemaTables, dropTableIfExists, List.filter_filter]
    rw [List.filter_eq_nil_iff]
    intro p hp
    have hm := h p hp
    simp only [schemaTableNames, List.mem_cons, List.not_mem_nil,
      or_false] at hm
    rcases hm with hm | hm | hm | hm | hm <;> rw [hm] <;> decide
  have hd : dropSchemaTables d = ⟨[]⟩ := by
    cases hdd : dropSchemaTables d
    simp_all
  rw [createSchemaDb, hd]
  rfl

/-- C10, witness: the hypothesis discharged at a leftover database holding
one orders table with one stale row. -/
theorem c10_reset_witness :
    createSchemaDb ⟨[("orders", [[SqlValue.vint 1, SqlValue.vdec 9999]])]⟩
      = Except.ok freshSchemaDb
    ∧ createSchemaDb Database.empty = Except.ok freshSchemaDb
    ∧ createSchemaDb freshSchemaDb = Except.ok freshSchemaDb
    ∧ ∀ n ∈ schemaTableNames, rowCount freshSchemaDb n = some 0 :=
  c10_schema_reset ⟨[("orders", [[SqlValue.vint 1, SqlValue.vdec 9999]])]⟩
    (by decide)
